import Mathlib

/-!
Verification of the Qarnot MCP server core (credential resolution, token
masking, task-submission payload shaping, HTTP response handling, and the
tool handlers' error mapping), shallowly embedded from
`src/qarnot_mcp/tools.py` and `src/qarnot_mcp/client.py`.

Python strings are modelled as `List Char`; Python dicts (header mappings,
JSON objects) as ordered association lists over `List Char` keys.
-/

set_option autoImplicit false

namespace QarnotMCP

/-! ### Python string primitives -/

/-- Lowercasing a string, `str.lower()` (ASCII-faithful). -/
def lowerL (s : List Char) : List Char := s.map Char.toLower

/-- Characters stripped by Python `str.strip()` (the ASCII whitespace set). -/
def isPySpace (c : Char) : Bool :=
  c == ' ' || c == '\t' || c == '\n' || c == '\r' ||
  c == Char.ofNat 11 || c == Char.ofNat 12

/-- Python `str.strip()`: drop leading and trailing whitespace. -/
def pyStrip (s : List Char) : List Char :=
  ((s.dropWhile isPySpace).reverse.dropWhile isPySpace).reverse

/-- `s.startswith(p)`: `p` is an initial run of `s`. -/
def startsSeq : List Char → List Char → Bool
  | _, [] => true
  | [], _ :: _ => false
  | c :: cs, p :: ps => c == p && startsSeq cs ps

/-- Python `p in s` on strings: `p` occurs contiguously inside `s`. -/
def containsSeq : List Char → List Char → Bool
  | [], pat => pat.isEmpty
  | b :: bs, pat => startsSeq (b :: bs) pat || containsSeq bs pat

/-- First-match lookup in an ordered association list (Python `dict.get`,
keys being unique in a dict). -/
def alookup {α : Type} : List (List Char × α) → List Char → Option α
  | [], _ => none
  | p :: rest, k => if p.1 = k then some p.2 else alookup rest k

/-- Python `a or b` on an optional string: the first *truthy* (non-empty)
operand, else the second operand. -/
def pyOrStr (a b : Option (List Char)) : Option (List Char) :=
  match a with
  | some s => if s.isEmpty then b else some s
  | none => b

/-- Python truthiness of an optional string: present and non-empty. -/
def pyTruthy (o : Option (List Char)) : Bool :=
  match o with
  | some s => !s.isEmpty
  | none => false

/-! ### Lemmas about the string primitives -/

theorem startsSeq_length_le : ∀ (s p : List Char), startsSeq s p = true → p.length ≤ s.length := by
  intro s
  induction s with
  | nil => intro p h; cases p with
    | nil => simp
    | cons c cs => simp [startsSeq] at h
  | cons c cs ih =>
    intro p h
    cases p with
    | nil => simp
    | cons q qs =>
      simp only [startsSeq, Bool.and_eq_true] at h
      simpa using ih qs h.2

theorem containsSeq_length_le : ∀ (s p : List Char), containsSeq s p = true → p.length ≤ s.length := by
  intro s
  induction s with
  | nil => intro p h; simp [containsSeq, List.isEmpty_iff] at h; simp [h]
  | cons c cs ih =>
    intro p h
    simp only [containsSeq, Bool.or_eq_true] at h
    cases h with
    | inl h => exact startsSeq_length_le _ _ h
    | inr h => exact (ih p h).trans (by simp)

theorem startsSeq_refl : ∀ (s : List Char), startsSeq s s = true := by
  intro s
  induction s with
  | nil => rfl
  | cons c cs ih => simp [startsSeq, ih]

theorem containsSeq_append_right : ∀ (pre s : List Char), containsSeq (pre ++ s) s = true := by
  intro pre
  induction pre with
  | nil =>
    intro s
    cases s with
    | nil => rfl
    | cons c cs => simp [containsSeq, startsSeq_refl]
  | cons c cs ih =>
    intro s
    simp [containsSeq, ih s]

/-! ### Token masking (`_mask_token`, tools.py lines 21-25) -/

/-- `_mask_token`: show only first and last 4 characters; fully mask
tokens of length ≤ 12. -/
def mask_token (t : List Char) : List Char :=
  if t.length ≤ 12 then "***".data
  else t.take 4 ++ "...".data ++ t.drop (t.length - 4)

/-! ### Credential resolution (`get_api_key_from_context`, tools.py 28-55) -/

/-- A caller-facing tool error carrying a human-readable message. -/
structure ToolErr where
  message : List Char
deriving DecidableEq

/-- The Authentication-Required error raised when no credential resolves. -/
def authRequiredErr : ToolErr :=
  ⟨"Authentication required. Please provide an API key via Authorization header.".data⟩

/-- A header mapping: an inbound request's headers as a finite map. -/
abbrev Headers : Type := List (List Char × List Char)

/-- The Bearer-scheme test: `auth_header.lower().startswith("bearer ")`. -/
def isBearer (a : List Char) : Bool :=
  startsSeq (lowerL a) ("bearer ".data)

/-- `get_api_key_from_context`, inner part operating on the header mapping:
try `authorization`/`Authorization` (Bearer-stripping or verbatim), then
`x-api-key`/`X-Api-Key`, else fail. -/
def resolveApiKey (hs : Headers) : Except ToolErr (List Char) :=
  let auth_header := pyOrStr (alookup hs ("authorization".data)) (alookup hs ("Authorization".data))
  if pyTruthy auth_header then
    let a := auth_header.getD []
    if isBearer a then Except.ok (pyStrip (a.drop 7))
    else Except.ok a
  else
    let api_key := pyOrStr (alookup hs ("x-api-key".data)) (alookup hs ("X-Api-Key".data))
    if pyTruthy api_key then Except.ok (api_key.getD [])
    else Except.error authRequiredErr

/-- `get_api_key_from_context` on a context: a missing request context
resolves nothing and fails with Authentication-Required. -/
def resolveCtx : Option Headers → Except ToolErr (List Char)
  | none => Except.error authRequiredErr
  | some hs => resolveApiKey hs

/-! ### JSON-ish Python values and the submission payload -/

/-- A Python/JSON value as it appears in payloads and responses. -/
inductive PyVal where
  | vNone
  | vStr (s : List Char)
  | vInt (n : Int)
  | vList (xs : List PyVal)
  | vDict (kvs : List (List Char × PyVal))

/-- A Python dict with string keys, insertion-ordered. -/
abbrev Pydict : Type := List (List Char × PyVal)

/-- `dict.get(k)` with default `None`. -/
def dget (d : Pydict) (k : List Char) : PyVal :=
  (alookup d k).getD PyVal.vNone

/-- Python truthiness of an optional int (`if instance_count:`). -/
def pyTruthyInt (o : Option Int) : Bool :=
  match o with
  | some n => !(n == 0)
  | none => false

/-- Python truthiness of an optional list (`if tags:`). -/
def pyTruthyList {α : Type} (o : Option (List α)) : Bool :=
  match o with
  | some l => !l.isEmpty
  | none => false

/-- One conditional dict entry: present exactly when the guard holds. -/
def optEntry (c : Bool) (k : List Char) (v : PyVal) : Pydict :=
  if c then [(k, v)] else []

/-- Encoding of a caller-supplied `constants` list (list of str→str dicts). -/
def encConstants (cs : List (List (List Char × List Char))) : PyVal :=
  PyVal.vList (cs.map fun d => PyVal.vDict (d.map fun kv => (kv.1, PyVal.vStr kv.2)))

/-- Encoding of a list of strings. -/
def encStrList (l : List (List Char)) : PyVal :=
  PyVal.vList (l.map PyVal.vStr)

/-- The `task_config` built by `submit_task_impl` (tools.py lines 145-160):
`name` always, each optional field appended in source order when its
Python-truthy guard holds. -/
def submitPayload (name : List Char)
    (profile : Option (List Char)) (instance_count : Option Int)
    (shortname : Option (List Char)) (resource_buckets : Option (List (List Char)))
    (result_bucket : Option (List Char))
    (constants : Option (List (List (List Char × List Char))))
    (tags : Option (List (List Char))) : Pydict :=
  ("name".data, PyVal.vStr name) ::
  (optEntry (pyTruthy shortname) ("shortname".data) (PyVal.vStr (shortname.getD [])) ++
   (optEntry (pyTruthy profile) ("profile".data) (PyVal.vStr (profile.getD [])) ++
    (optEntry (pyTruthyInt instance_count) ("instanceCount".data) (PyVal.vInt (instance_count.getD 0)) ++
     (optEntry (pyTruthyList resource_buckets) ("resourceBuckets".data) (encStrList (resource_buckets.getD [])) ++
      (optEntry (pyTruthy result_bucket) ("resultBucket".data) (PyVal.vStr (result_bucket.getD [])) ++
       (optEntry (pyTruthyList constants) ("constants".data) (encConstants (constants.getD [])) ++
        optEntry (pyTruthyList tags) ("tags".data) (encStrList (tags.getD []))))))))

/-! ### HTTP response handling (`QarnotClient._request`, client.py 52-80) -/

/-- A remote-API failure (`QarnotAPIError`): numeric status and message. -/
structure APIErr where
  status : Nat
  message : List Char
deriving DecidableEq

/-- What an HTTP response exposes to `_request`: status, the outcome of
`response.json()` (`none` when parsing raises), the raw text, and the
`content-type` header (empty default). -/
structure HttpResponse where
  status : Nat
  jsonBody : Option PyVal
  text : List Char
  contentType : List Char

/-- The possible outcomes of `_request`'s response handling. -/
inductive ReqResult where
  | raisedErr (status : Nat) (message : PyVal)
  | noneResult
  | jsonResult (v : PyVal)
  | textResult (s : List Char)
  | jsonDecodeRaised

/-- The error-branch message: `error_data.get("message", response.text)`,
falling back to the raw text when `response.json()` raises or does not
produce a dict. -/
def errMessage (r : HttpResponse) : PyVal :=
  match r.jsonBody with
  | some (PyVal.vDict kvs) => (alookup kvs ("message".data)).getD (PyVal.vStr r.text)
  | _ => PyVal.vStr r.text

/-- `_request`'s handling of a received response (client.py lines 66-80). -/
def handleResponse (r : HttpResponse) : ReqResult :=
  if 400 ≤ r.status then
    ReqResult.raisedErr r.status (errMessage r)
  else if r.status = 204 then
    ReqResult.noneResult
  else if containsSeq r.contentType ("application/json".data) then
    match r.jsonBody with
    | some v => ReqResult.jsonResult v
    | none => ReqResult.jsonDecodeRaised
  else
    ReqResult.textResult r.text

/-! ### Tool handlers (tools.py 64-291), with effect traces

Each handler is embedded as a function of the request context, a remote
oracle standing for the corresponding `QarnotClient` method (which either
returns a value or raises `QarnotAPIError`), and the call parameters. It
returns the handler's outcome together with the ordered trace of effects
it performed: credential resolution, client construction, remote calls,
and client closure. -/

/-- A remote operation issued through the client, with its arguments. -/
inductive RemoteOp where
  | listTasks (tags : Option (List (List Char)))
  | getTask (uuid : List Char)
  | createTask (cfg : Pydict)
  | abortTask (uuid : List Char)
  | deleteTask (uuid : List Char)
  | getTaskStdout (uuid : List Char) (inst : Option Int)
  | getTaskStderr (uuid : List Char) (inst : Option Int)
  | listProfiles
  | getProfile (name : List Char)

/-- An observable effect of a tool invocation. -/
inductive Ev where
  | resolve
  | construct
  | call (op : RemoteOp)
  | close

/-- Whether an effect is a remote call. -/
def Ev.isCall : Ev → Bool
  | Ev.call _ => true
  | _ => false

/-- Whether an effect closes the client. -/
def Ev.isClose : Ev → Bool
  | Ev.close => true
  | _ => false

/-- The reduced per-task projection built by `list_tasks_impl`
(tools.py lines 80-92). -/
def formatTask (t : Pydict) : Pydict :=
  [("uuid".data, dget t ("uuid".data)),
   ("name".data, dget t ("name".data)),
   ("shortname".data, dget t ("shortname".data)),
   ("state".data, dget t ("state".data)),
   ("progress".data, dget t ("progress".data)),
   ("profile".data, dget t ("profile".data)),
   ("instance_count".data, dget t ("instanceCount".data)),
   ("running_instance_count".data, dget t ("runningInstanceCount".data)),
   ("creation_date".data, dget t ("creationDate".data)),
   ("end_date".data, dget t ("endDate".data)),
   ("tags".data, dget t ("tags".data))]

/-- `list_tasks_impl`: resolve, construct, call, shape or map the error. -/
def listTasksImpl (ctx : Option Headers)
    (remote : Option (List (List Char)) → Except APIErr (List Pydict))
    (tags : Option (List (List Char))) :
    Except ToolErr (List Pydict) × List Ev :=
  match resolveCtx ctx with
  | Except.error e => (Except.error e, [Ev.resolve])
  | Except.ok _ =>
    let tr := [Ev.resolve, Ev.construct, Ev.call (RemoteOp.listTasks tags)]
    match remote tags with
    | Except.ok tasks => (Except.ok (tasks.map formatTask), tr)
    | Except.error e =>
      (Except.error ⟨"Failed to list tasks: ".data ++ e.message⟩, tr)

/-- `get_task_impl`: 404 becomes a Not-Found naming the UUID. -/
def getTaskImpl (ctx : Option Headers)
    (remote : List Char → Except APIErr Pydict) (task_uuid : List Char) :
    Except ToolErr Pydict × List Ev :=
  match resolveCtx ctx with
  | Except.error e => (Except.error e, [Ev.resolve])
  | Except.ok _ =>
    let tr := [Ev.resolve, Ev.construct, Ev.call (RemoteOp.getTask task_uuid)]
    match remote task_uuid with
    | Except.ok task => (Except.ok task, tr)
    | Except.error e =>
      if e.status = 404 then
        (Except.error ⟨"Task not found: ".data ++ task_uuid⟩, tr)
      else
        (Except.error ⟨"Failed to get task: ".data ++ e.message⟩, tr)

/-- `submit_task_impl`: build the payload, POST it, map failures. -/
def submitTaskImpl (ctx : Option Headers)
    (remote : Pydict → Except APIErr Pydict)
    (name : List Char)
    (profile : Option (List Char)) (instance_count : Option Int)
    (shortname : Option (List Char)) (resource_buckets : Option (List (List Char)))
    (result_bucket : Option (List Char))
    (constants : Option (List (List (List Char × List Char))))
    (tags : Option (List (List Char))) :
    Except ToolErr Pydict × List Ev :=
  match resolveCtx ctx with
  | Except.error e => (Except.error e, [Ev.resolve])
  | Except.ok _ =>
    let cfg := submitPayload name profile instance_count shortname
      resource_buckets result_bucket constants tags
    let tr := [Ev.resolve, Ev.construct, Ev.call (RemoteOp.createTask cfg)]
    match remote cfg with
    | Except.ok task => (Except.ok task, tr)
    | Except.error e =>
      (Except.error ⟨"Failed to submit task: ".data ++ e.message⟩, tr)

/-- The single-quote character U+0027, used in the validation message. -/
def quoteC : Char := Char.ofNat 39

/-- The local validation message of get_task_logs_impl, with its quoted
log-type names spelled via U+0027. -/
def logTypeErrMsg : List Char :=
  "log_type must be ".data ++ [quoteC] ++ "stdout".data ++ [quoteC] ++
  " or ".data ++ [quoteC] ++ "stderr".data ++ [quoteC]

/-- `get_task_logs_impl`: the log-type validation precedes credential
resolution and any client work (tools.py lines 184-193). -/
def getTaskLogsImpl (ctx : Option Headers)
    (remoteOut remoteErr : List Char → Option Int → Except APIErr (List Char))
    (task_uuid log_type : List Char) (instance_id : Option Int) :
    Except ToolErr (List Char) × List Ev :=
  if log_type ≠ "stdout".data ∧ log_type ≠ "stderr".data then
    (Except.error ⟨logTypeErrMsg⟩, [])
  else
    match resolveCtx ctx with
    | Except.error e => (Except.error e, [Ev.resolve])
    | Except.ok _ =>
      let res := if log_type = "stdout".data then remoteOut task_uuid instance_id
                 else remoteErr task_uuid instance_id
      let op := if log_type = "stdout".data then RemoteOp.getTaskStdout task_uuid instance_id
                else RemoteOp.getTaskStderr task_uuid instance_id
      let tr := [Ev.resolve, Ev.construct, Ev.call op]
      match res with
      | Except.ok logs =>
        (Except.ok (if logs.isEmpty then "No ".data ++ log_type ++ " output available".data
                    else logs), tr)
      | Except.error e =>
        if e.status = 404 then
          (Except.error ⟨"Task or instance not found: ".data ++ task_uuid⟩, tr)
        else
          (Except.error ⟨"Failed to get logs: ".data ++ e.message⟩, tr)

/-- `abort_task_impl`: 404 → Not-Found; 403 → cannot-abort context. -/
def abortTaskImpl (ctx : Option Headers)
    (remote : List Char → Except APIErr Unit) (task_uuid : List Char) :
    Except ToolErr Pydict × List Ev :=
  match resolveCtx ctx with
  | Except.error e => (Except.error e, [Ev.resolve])
  | Except.ok _ =>
    let tr := [Ev.resolve, Ev.construct, Ev.call (RemoteOp.abortTask task_uuid)]
    match remote task_uuid with
    | Except.ok _ =>
      (Except.ok [("status".data, PyVal.vStr "success".data),
                  ("message".data, PyVal.vStr ("Task ".data ++ task_uuid ++ " has been aborted".data))], tr)
    | Except.error e =>
      if e.status = 404 then
        (Except.error ⟨"Task not found: ".data ++ task_uuid⟩, tr)
      else if e.status = 403 then
        (Except.error ⟨"Cannot abort task (may already be completed): ".data ++ task_uuid⟩, tr)
      else
        (Except.error ⟨"Failed to abort task: ".data ++ e.message⟩, tr)

/-- `delete_task_impl`: 404 → Not-Found; other → generic. -/
def deleteTaskImpl (ctx : Option Headers)
    (remote : List Char → Except APIErr Unit) (task_uuid : List Char) :
    Except ToolErr Pydict × List Ev :=
  match resolveCtx ctx with
  | Except.error e => (Except.error e, [Ev.resolve])
  | Except.ok _ =>
    let tr := [Ev.resolve, Ev.construct, Ev.call (RemoteOp.deleteTask task_uuid)]
    match remote task_uuid with
    | Except.ok _ =>
      (Except.ok [("status".data, PyVal.vStr "success".data),
                  ("message".data, PyVal.vStr ("Task ".data ++ task_uuid ++ " has been deleted".data))], tr)
    | Except.error e =>
      if e.status = 404 then
        (Except.error ⟨"Task not found: ".data ++ task_uuid⟩, tr)
      else
        (Except.error ⟨"Failed to delete task: ".data ++ e.message⟩, tr)

/-- `list_profiles_impl`: returns the remote list verbatim. -/
def listProfilesImpl (ctx : Option Headers)
    (remote : Unit → Except APIErr (List Pydict)) :
    Except ToolErr (List Pydict) × List Ev :=
  match resolveCtx ctx with
  | Except.error e => (Except.error e, [Ev.resolve])
  | Except.ok _ =>
    let tr := [Ev.resolve, Ev.construct, Ev.call RemoteOp.listProfiles]
    match remote () with
    | Except.ok ps => (Except.ok ps, tr)
    | Except.error e =>
      (Except.error ⟨"Failed to list profiles: ".data ++ e.message⟩, tr)

/-- `get_profile_impl`: 404 → Not-Found naming the profile. -/
def getProfileImpl (ctx : Option Headers)
    (remote : List Char → Except APIErr Pydict) (profile_name : List Char) :
    Except ToolErr Pydict × List Ev :=
  match resolveCtx ctx with
  | Except.error e => (Except.error e, [Ev.resolve])
  | Except.ok _ =>
    let tr := [Ev.resolve, Ev.construct, Ev.call (RemoteOp.getProfile profile_name)]
    match remote profile_name with
    | Except.ok p => (Except.ok p, tr)
    | Except.error e =>
      if e.status = 404 then
        (Except.error ⟨"Profile not found: ".data ++ profile_name⟩, tr)
      else
        (Except.error ⟨"Failed to get profile: ".data ++ e.message⟩, tr)

/-! ### Claim C1: Authorization header resolution -/

/-- Claim C1: for any header mapping whose effective Authorization value
(the Python-or of the two checked key casings) is a non-empty string, the
resolver returns: the remainder after the 7-character scheme prefix,
whitespace-stripped, when the value starts with the Bearer scheme under
any casing; and the whole value verbatim otherwise. The conclusion is
independent of any X-Api-Key entries, so Authorization takes precedence
when both are present. -/
theorem c1_authorization_resolution (hs : Headers) (a : List Char)
    (hget : pyOrStr (alookup hs ("authorization".data)) (alookup hs ("Authorization".data)) = some a)
    (hne : a ≠ []) :
    (isBearer a = true → resolveApiKey hs = Except.ok (pyStrip (a.drop 7))) ∧
    (isBearer a = false → resolveApiKey hs = Except.ok a) := by
  have hTr : pyTruthy (pyOrStr (alookup hs ("authorization".data)) (alookup hs ("Authorization".data))) = true := by
    rw [hget]; simp [pyTruthy, List.isEmpty_iff, hne]
  constructor <;> intro hb <;>
    simp [resolveApiKey, hget, hTr, hb, pyTruthy, List.isEmpty_iff, hne]

/-- Witness for C1: one Bearer header with exotic casing and padding, one
non-Bearer header returned verbatim; an X-Api-Key entry present alongside
is ignored. -/
theorem c1_authorization_resolution_witness :
    resolveApiKey [("Authorization".data, "bEaRer  tok ".data), ("x-api-key".data, "other".data)] =
      Except.ok ("tok".data) ∧
    resolveApiKey [("authorization".data, "raw-credential".data), ("x-api-key".data, "other".data)] =
      Except.ok ("raw-credential".data) := by
  constructor
  · have h := (c1_authorization_resolution
      [("Authorization".data, "bEaRer  tok ".data), ("x-api-key".data, "other".data)]
      ("bEaRer  tok ".data) rfl (by decide)).1 rfl
    exact h.trans rfl
  · have h := (c1_authorization_resolution
      [("authorization".data, "raw-credential".data), ("x-api-key".data, "other".data)]
      ("raw-credential".data) rfl (by decide)).2 rfl
    exact h

/-! ### Claim C10: empty Authorization value falls through -/

/-- Claim C10: when the Authorization header is present only with an
empty-string value (under either checked casing), the resolver does not
return the empty string verbatim; it behaves exactly as the X-Api-Key
fallback branch, failing with Authentication-Required when X-Api-Key is
absent or empty too. -/
theorem c10_empty_authorization_falls_through (hs : Headers)
    (h1 : alookup hs ("authorization".data) = none ∨ alookup hs ("authorization".data) = some [])
    (h2 : alookup hs ("Authorization".data) = none ∨ alookup hs ("Authorization".data) = some [])
    (_h3 : alookup hs ("authorization".data) = some [] ∨ alookup hs ("Authorization".data) = some []) :
    resolveApiKey hs =
      (let api_key := pyOrStr (alookup hs ("x-api-key".data)) (alookup hs ("X-Api-Key".data))
       if pyTruthy api_key then Except.ok (api_key.getD []) else Except.error authRequiredErr) ∧
    resolveApiKey hs ≠ Except.ok [] := by
  have hTr : pyTruthy (pyOrStr (alookup hs ("authorization".data)) (alookup hs ("Authorization".data))) = false := by
    rcases h1 with h1 | h1 <;> rcases h2 with h2 | h2 <;>
      simp [pyOrStr, pyTruthy, h1, h2]
  have hmain : resolveApiKey hs =
      (let api_key := pyOrStr (alookup hs ("x-api-key".data)) (alookup hs ("X-Api-Key".data))
       if pyTruthy api_key then Except.ok (api_key.getD []) else Except.error authRequiredErr) := by
    simp only [resolveApiKey, hTr, Bool.false_eq_true, if_false]
  refine ⟨hmain, ?_⟩
  rw [hmain]
  rcases hx : pyOrStr (alookup hs ("x-api-key".data)) (alookup hs ("X-Api-Key".data)) with _ | s
  · simp [pyTruthy]
  · rcases s with _ | ⟨c, cs⟩
    · simp [pyTruthy]
    · simp [pyTruthy]

/-- Witness for C10: an empty Authorization value with no X-Api-Key fails
with Authentication-Required rather than resolving to the empty string. -/
theorem c10_empty_authorization_witness :
    resolveApiKey [("Authorization".data, ([] : List Char))] = Except.error authRequiredErr := by
  have h := (c10_empty_authorization_falls_through
    [("Authorization".data, ([] : List Char))] (Or.inl rfl) (Or.inr rfl) (Or.inr rfl)).1
  exact h.trans rfl

/-! ### Claim C2: key-casing sensitivity of the resolver -/

/-- Counterexample to C2 as stated: two singleton header mappings whose
keys agree up to casing (Authorization versus AUTHORIZATION) with the same
Bearer value produce different outcomes, so the resolver is not
key-case-insensitive. -/
theorem c2_casing_counterexample :
    lowerL ("AUTHORIZATION".data) = lowerL ("Authorization".data) ∧
    resolveApiKey [("Authorization".data, "Bearer tok".data)] = Except.ok ("tok".data) ∧
    resolveApiKey [("AUTHORIZATION".data, "Bearer tok".data)] = Except.error authRequiredErr :=
  ⟨by decide, rfl, rfl⟩

/-- Claim C2 amended: the resolver recognizes exactly the lowercase
spelling and the one canonical mixed-case spelling of each header; the
outcome is unchanged between those two casings of a key, while any other
recasing of a lone credential header is treated as absent. -/
theorem c2_checked_casings_agree (v k : List Char)
    (hk1 : k ≠ "authorization".data) (hk2 : k ≠ "Authorization".data)
    (hk3 : k ≠ "x-api-key".data) (hk4 : k ≠ "X-Api-Key".data) :
    resolveApiKey [("authorization".data, v)] = resolveApiKey [("Authorization".data, v)] ∧
    resolveApiKey [("x-api-key".data, v)] = resolveApiKey [("X-Api-Key".data, v)] ∧
    resolveApiKey [(k, v)] = Except.error authRequiredErr := by
  have n1 : ("authorization".data : List Char) ≠ "Authorization".data := by decide
  have n2 : ("authorization".data : List Char) ≠ "x-api-key".data := by decide
  have n3 : ("authorization".data : List Char) ≠ "X-Api-Key".data := by decide
  have n4 : ("Authorization".data : List Char) ≠ "x-api-key".data := by decide
  have n5 : ("Authorization".data : List Char) ≠ "X-Api-Key".data := by decide
  have n6 : ("x-api-key".data : List Char) ≠ "authorization".data := by decide
  have n7 : ("x-api-key".data : List Char) ≠ "Authorization".data := by decide
  have n8 : ("x-api-key".data : List Char) ≠ "X-Api-Key".data := by decide
  have n9 : ("X-Api-Key".data : List Char) ≠ "authorization".data := by decide
  have n10 : ("X-Api-Key".data : List Char) ≠ "Authorization".data := by decide
  have n11 : ("X-Api-Key".data : List Char) ≠ "x-api-key".data := by decide
  refine ⟨?_, ?_, ?_⟩
  · by_cases hv : v.isEmpty <;>
      simp [resolveApiKey, alookup, pyOrStr, pyTruthy, n1, n1.symm, n2, n3, n4, n5, hv]
  · by_cases hv : v.isEmpty <;>
      simp [resolveApiKey, alookup, pyOrStr, pyTruthy, n6, n7, n8, n8.symm, n9, n10, hv]
  · simp [resolveApiKey, alookup, pyOrStr, pyTruthy, hk1, hk2, hk3, hk4]

/-- Witness for C2 amended: concrete agreement between the two checked
casings, and the all-uppercase recasing treated as absent. -/
theorem c2_checked_casings_agree_witness :
    resolveApiKey [("authorization".data, "Bearer tok".data)] =
      resolveApiKey [("Authorization".data, "Bearer tok".data)] ∧
    resolveApiKey [("x-api-key".data, "Bearer tok".data)] =
      resolveApiKey [("X-Api-Key".data, "Bearer tok".data)] ∧
    resolveApiKey [("AUTHORIZATION".data, "Bearer tok".data)] = Except.error authRequiredErr :=
  c2_checked_casings_agree ("Bearer tok".data) ("AUTHORIZATION".data)
    (by decide) (by decide) (by decide) (by decide)

/-! ### Claim C3: no credential means failure before any remote call -/

/-- A header mapping carrying no credential header under any casing. -/
def noCredHeaders (hs : Headers) : Prop :=
  ∀ p ∈ hs, lowerL p.1 ≠ "authorization".data ∧ lowerL p.1 ≠ "x-api-key".data

/-- A context carrying no resolvable credential: absent entirely, or a
header mapping without credential headers. -/
def noCredCtx : Option Headers → Prop
  | none => True
  | some hs => noCredHeaders hs

theorem alookup_eq_none {α : Type} (hs : List (List Char × α)) (k : List Char)
    (h : ∀ p ∈ hs, p.1 ≠ k) : alookup hs k = none := by
  induction hs with
  | nil => rfl
  | cons p rest ih =>
    simp only [alookup, if_neg (h p (by simp))]
    exact ih (fun q hq => h q (by simp [hq]))

theorem resolveApiKey_noCred (hs : Headers) (h : noCredHeaders hs) :
    resolveApiKey hs = Except.error authRequiredErr := by
  have e1 : alookup hs ("authorization".data) = none :=
    alookup_eq_none _ _ (fun p hp he => ((h p hp).1 (by rw [he]; decide)))
  have e2 : alookup hs ("Authorization".data) = none :=
    alookup_eq_none _ _ (fun p hp he => ((h p hp).1 (by rw [he]; decide)))
  have e3 : alookup hs ("x-api-key".data) = none :=
    alookup_eq_none _ _ (fun p hp he => ((h p hp).2 (by rw [he]; decide)))
  have e4 : alookup hs ("X-Api-Key".data) = none :=
    alookup_eq_none _ _ (fun p hp he => ((h p hp).2 (by rw [he]; decide)))
  simp [resolveApiKey, e1, e2, e3, e4, pyOrStr, pyTruthy]

theorem resolveCtx_noCred (ctx : Option Headers) (h : noCredCtx ctx) :
    resolveCtx ctx = Except.error authRequiredErr := by
  cases ctx with
  | none => rfl
  | some hs => exact resolveApiKey_noCred hs h

/-- Claim C3: with no request context, or a header mapping containing no
casing of Authorization or X-Api-Key, every tool handler fails with the
Authentication-Required error and its trace contains no remote call (for
the seven handlers resolving first, the trace is exactly the failed
resolution; get_task_logs may instead fail its local validation, again
without any remote call). -/
theorem c3_no_credential_no_remote_call (ctx : Option Headers) (h : noCredCtx ctx)
    (rList : Option (List (List Char)) → Except APIErr (List Pydict))
    (rGet rProfile : List Char → Except APIErr Pydict)
    (rCreate : Pydict → Except APIErr Pydict)
    (rAbort rDelete : List Char → Except APIErr Unit)
    (rOut rErr : List Char → Option Int → Except APIErr (List Char))
    (rProfiles : Unit → Except APIErr (List Pydict))
    (tags rb tg : Option (List (List Char)))
    (uuid name log_type pname : List Char)
    (profile short res : Option (List Char)) (ic inst : Option Int)
    (cs : Option (List (List (List Char × List Char)))) :
    resolveCtx ctx = Except.error authRequiredErr ∧
    listTasksImpl ctx rList tags = (Except.error authRequiredErr, [Ev.resolve]) ∧
    getTaskImpl ctx rGet uuid = (Except.error authRequiredErr, [Ev.resolve]) ∧
    submitTaskImpl ctx rCreate name profile ic short rb res cs tg =
      (Except.error authRequiredErr, [Ev.resolve]) ∧
    ((getTaskLogsImpl ctx rOut rErr uuid log_type inst).2.any Ev.isCall = false ∧
      ∃ e, (getTaskLogsImpl ctx rOut rErr uuid log_type inst).1 = Except.error e) ∧
    abortTaskImpl ctx rAbort uuid = (Except.error authRequiredErr, [Ev.resolve]) ∧
    deleteTaskImpl ctx rDelete uuid = (Except.error authRequiredErr, [Ev.resolve]) ∧
    listProfilesImpl ctx rProfiles = (Except.error authRequiredErr, [Ev.resolve]) ∧
    getProfileImpl ctx rProfile pname = (Except.error authRequiredErr, [Ev.resolve]) := by
  have hres := resolveCtx_noCred ctx h
  refine ⟨hres, ?_, ?_, ?_, ?_, ?_, ?_, ?_, ?_⟩
  · simp [listTasksImpl, hres]
  · simp [getTaskImpl, hres]
  · simp [submitTaskImpl, hres]
  · by_cases hv : log_type ≠ "stdout".data ∧ log_type ≠ "stderr".data
    · simp [getTaskLogsImpl, if_pos hv]
    · simp only [getTaskLogsImpl, if_neg hv, hres]
      exact ⟨by simp [Ev.isCall], ⟨authRequiredErr, rfl⟩⟩
  · simp [abortTaskImpl, hres]
  · simp [deleteTaskImpl, hres]
  · simp [listProfilesImpl, hres]
  · simp [getProfileImpl, hres]

/-- Witness for C3: a concrete credential-free header mapping makes a
get_task invocation fail with Authentication-Required after resolution
only. -/
theorem c3_no_credential_witness :
    getTaskImpl (some [("content-type".data, "application/json".data)])
      (fun _ => Except.error ⟨500, "boom".data⟩) ("u-1".data) =
      (Except.error authRequiredErr, [Ev.resolve]) :=
  (c3_no_credential_no_remote_call
    (some [("content-type".data, "application/json".data)])
    (by simp only [noCredCtx, noCredHeaders]; decide)
    (fun _ => Except.error ⟨500, "boom".data⟩)
    (fun _ => Except.error ⟨500, "boom".data⟩)
    (fun _ => Except.error ⟨500, "boom".data⟩)
    (fun _ => Except.error ⟨500, "boom".data⟩)
    (fun _ => Except.error ⟨500, "boom".data⟩)
    (fun _ => Except.error ⟨500, "boom".data⟩)
    (fun _ _ => Except.error ⟨500, "boom".data⟩)
    (fun _ _ => Except.error ⟨500, "boom".data⟩)
    (fun _ => Except.error ⟨500, "boom".data⟩)
    none none none
    ("u-1".data) ("n".data) ("stdout".data) ("p".data)
    none none none none none none).2.2.1

/-! ### Claim C4: token masking -/

/-- Claim C4: credentials of length at most 12 mask to the fixed constant;
longer credentials keep exactly their first 4 and last 4 characters in the
masked form, and the masked form never contains the full credential as a
substring. -/
theorem c4_mask_token (t : List Char) :
    (t.length ≤ 12 → mask_token t = "***".data) ∧
    (12 < t.length →
      (mask_token t).take 4 = t.take 4 ∧
      (mask_token t).drop ((mask_token t).length - 4) = t.drop (t.length - 4) ∧
      containsSeq (mask_token t) t = false) := by
  constructor
  · intro h; simp [mask_token, h]
  · intro h
    have hm : mask_token t = t.take 4 ++ "...".data ++ t.drop (t.length - 4) := by
      simp [mask_token, Nat.not_le.mpr h]
    have h4 : (t.take 4).length = 4 := by
      simp [List.length_take]; omega
    have hlen : (mask_token t).length = 11 := by
      rw [hm]; simp [List.length_append, List.length_take, List.length_drop]; omega
    refine ⟨?_, ?_, ?_⟩
    · rw [hm, List.append_assoc, List.take_append_of_le_length (by rw [h4]),
        List.take_take]
      simp
    · rw [hlen, hm, List.append_assoc]
      have h7 : (t.take 4 ++ "...".data).length = 7 := by
        simp [List.length_append, h4]
      rw [← List.append_assoc, show (11 : Nat) - 4 = 7 from rfl, ← h7,
        List.drop_left]
    · by_contra hc
      have hc' : containsSeq (mask_token t) t = true := by
        revert hc; cases containsSeq (mask_token t) t <;> simp
      have := containsSeq_length_le _ _ hc'
      omega

/-- Witness for C4: a short token masks to the constant; a 16-character
token's mask does not contain the token. -/
theorem c4_mask_token_witness :
    mask_token ("abc".data) = "***".data ∧
    containsSeq (mask_token ("abcdefghijklmnop".data)) ("abcdefghijklmnop".data) = false :=
  ⟨(c4_mask_token ("abc".data)).1 (by decide),
   ((c4_mask_token ("abcdefghijklmnop".data)).2 (by decide)).2.2⟩

/-! ### Claim C5: submission payload shaping -/

theorem alookup_optEntry_ne {c : Bool} {k k' : List Char} {v : PyVal}
    (rest : Pydict) (h : k ≠ k') :
    alookup (optEntry c k v ++ rest) k' = alookup rest k' := by
  cases c <;> simp [optEntry, alookup, h]

theorem alookup_optEntry_ne_single {c : Bool} {k k' : List Char} {v : PyVal}
    (h : k ≠ k') : alookup (optEntry c k v) k' = none := by
  cases c <;> simp [optEntry, alookup, h]

theorem alookup_optEntry_eq {c : Bool} {k : List Char} {v : PyVal}
    (rest : Pydict) :
    alookup (optEntry c k v ++ rest) k = if c then some v else alookup rest k := by
  cases c <;> simp [optEntry, alookup]

theorem alookup_optEntry_eq_single {c : Bool} {k : List Char} {v : PyVal} :
    alookup (optEntry c k v) k = if c then some v else none := by
  cases c <;> simp [optEntry, alookup]

/-- Counterexample to C5 as stated: supplying the optional profile field
explicitly as the empty string produces a payload whose only key is name —
the supplied field is dropped, so presence in the payload is not
equivalent to the field having been supplied. -/
theorem c5_supplied_empty_counterexample :
    submitPayload ("Test Task".data) (some []) none none none none none none =
      [("name".data, PyVal.vStr ("Test Task".data))] := rfl

/-- Claim C5 amended: the payload always carries name; each optional field
appears under its remote-side key, with its supplied value, exactly when
it was supplied with a Python-truthy value (non-empty string or list,
non-zero count), and is absent otherwise — in particular a field supplied
as empty is omitted like an unsupplied one; supplying only name yields the
singleton name payload. -/
theorem c5_submit_payload_fields (name : List Char) (profile : Option (List Char))
    (instance_count : Option Int) (shortname : Option (List Char))
    (resource_buckets : Option (List (List Char))) (result_bucket : Option (List Char))
    (constants : Option (List (List (List Char × List Char))))
    (tags : Option (List (List Char))) :
    alookup (submitPayload name profile instance_count shortname resource_buckets
        result_bucket constants tags) ("name".data) = some (PyVal.vStr name) ∧
    alookup (submitPayload name profile instance_count shortname resource_buckets
        result_bucket constants tags) ("shortname".data) =
      (match shortname with
        | some s => if s.isEmpty then none else some (PyVal.vStr s)
        | none => none) ∧
    alookup (submitPayload name profile instance_count shortname resource_buckets
        result_bucket constants tags) ("profile".data) =
      (match profile with
        | some s => if s.isEmpty then none else some (PyVal.vStr s)
        | none => none) ∧
    alookup (submitPayload name profile instance_count shortname resource_buckets
        result_bucket constants tags) ("instanceCount".data) =
      (match instance_count with
        | some n => if n = 0 then none else some (PyVal.vInt n)
        | none => none) ∧
    alookup (submitPayload name profile instance_count shortname resource_buckets
        result_bucket constants tags) ("resourceBuckets".data) =
      (match resource_buckets with
        | some l => if l.isEmpty then none else some (encStrList l)
        | none => none) ∧
    alookup (submitPayload name profile instance_count shortname resource_buckets
        result_bucket constants tags) ("resultBucket".data) =
      (match result_bucket with
        | some s => if s.isEmpty then none else some (PyVal.vStr s)
        | none => none) ∧
    alookup (submitPayload name profile instance_count shortname resource_buckets
        result_bucket constants tags) ("constants".data) =
      (match constants with
        | some l => if l.isEmpty then none else some (encConstants l)
        | none => none) ∧
    alookup (submitPayload name profile instance_count shortname resource_buckets
        result_bucket constants tags) ("tags".data) =
      (match tags with
        | some l => if l.isEmpty then none else some (encStrList l)
        | none => none) ∧
    submitPayload name none none none none none none none =
      [("name".data, PyVal.vStr name)] := by
  refine ⟨?_, ?_, ?_, ?_, ?_, ?_, ?_, ?_, rfl⟩
  · simp [submitPayload, alookup]
  · simp only [submitPayload, alookup]
    rw [if_neg (show ¬("name".data : List Char) = "shortname".data by decide),
      alookup_optEntry_eq,
      alookup_optEntry_ne _ (by decide), alookup_optEntry_ne _ (by decide),
      alookup_optEntry_ne _ (by decide), alookup_optEntry_ne _ (by decide),
      alookup_optEntry_ne _ (by decide), alookup_optEntry_ne_single (by decide)]
    cases shortname with
    | none => simp [pyTruthy]
    | some s => by_cases hs : s.isEmpty <;> simp [pyTruthy, hs]
  · simp only [submitPayload, alookup]
    rw [if_neg (show ¬("name".data : List Char) = "profile".data by decide),
      alookup_optEntry_ne _ (by decide), alookup_optEntry_eq,
      alookup_optEntry_ne _ (by decide), alookup_optEntry_ne _ (by decide),
      alookup_optEntry_ne _ (by decide), alookup_optEntry_ne _ (by decide),
      alookup_optEntry_ne_single (by decide)]
    cases profile with
    | none => simp [pyTruthy]
    | some s => by_cases hs : s.isEmpty <;> simp [pyTruthy, hs]
  · simp only [submitPayload, alookup]
    rw [if_neg (show ¬("name".data : List Char) = "instanceCount".data by decide),
      alookup_optEntry_ne _ (by decide), alookup_optEntry_ne _ (by decide),
      alookup_optEntry_eq,
      alookup_optEntry_ne _ (by decide), alookup_optEntry_ne _ (by decide),
      alookup_optEntry_ne _ (by decide), alookup_optEntry_ne_single (by decide)]
    cases instance_count with
    | none => simp [pyTruthyInt]
    | some n => by_cases hn : n = 0 <;> simp [pyTruthyInt, hn]
  · simp only [submitPayload, alookup]
    rw [if_neg (show ¬("name".data : List Char) = "resourceBuckets".data by decide),
      alookup_optEntry_ne _ (by decide), alookup_optEntry_ne _ (by decide),
      alookup_optEntry_ne _ (by decide), alookup_optEntry_eq,
      alookup_optEntry_ne _ (by decide), alookup_optEntry_ne _ (by decide),
      alookup_optEntry_ne_single (by decide)]
    cases resource_buckets with
    | none => simp [pyTruthyList]
    | some l => by_cases hl : l.isEmpty <;> simp [pyTruthyList, hl]
  · simp only [submitPayload, alookup]
    rw [if_neg (show ¬("name".data : List Char) = "resultBucket".data by decide),
      alookup_optEntry_ne _ (by decide), alookup_optEntry_ne _ (by decide),
      alookup_optEntry_ne _ (by decide), alookup_optEntry_ne _ (by decide),
      alookup_optEntry_eq,
      alookup_optEntry_ne _ (by decide), alookup_optEntry_ne_single (by decide)]
    cases result_bucket with
    | none => simp [pyTruthy]
    | some s => by_cases hs : s.isEmpty <;> simp [pyTruthy, hs]
  · simp only [submitPayload, alookup]
    rw [if_neg (show ¬("name".data : List Char) = "constants".data by decide),
      alookup_optEntry_ne _ (by decide), alookup_optEntry_ne _ (by decide),
      alookup_optEntry_ne _ (by decide), alookup_optEntry_ne _ (by decide),
      alookup_optEntry_ne _ (by decide), alookup_optEntry_eq,
      alookup_optEntry_ne_single (by decide)]
    cases constants with
    | none => simp [pyTruthyList]
    | some l => by_cases hl : l.isEmpty <;> simp [pyTruthyList, hl]
  · simp only [submitPayload, alookup]
    rw [if_neg (show ¬("name".data : List Char) = "tags".data by decide),
      alookup_optEntry_ne _ (by decide), alookup_optEntry_ne _ (by decide),
      alookup_optEntry_ne _ (by decide), alookup_optEntry_ne _ (by decide),
      alookup_optEntry_ne _ (by decide), alookup_optEntry_ne _ (by decide),
      alookup_optEntry_eq_single]
    cases tags with
    | none => simp [pyTruthyList]
    | some l => by_cases hl : l.isEmpty <;> simp [pyTruthyList, hl]

/-! ### Claim C6: local log-type validation precedes everything -/

/-- Claim C6: an invalid log type makes get_task_logs fail with the local
validation error and an empty effect trace — no credential resolution, no
client construction, no remote call. -/
theorem c6_log_type_validation (ctx : Option Headers)
    (rOut rErr : List Char → Option Int → Except APIErr (List Char))
    (task_uuid log_type : List Char) (instance_id : Option Int)
    (h1 : log_type ≠ "stdout".data) (h2 : log_type ≠ "stderr".data) :
    getTaskLogsImpl ctx rOut rErr task_uuid log_type instance_id =
      (Except.error ⟨logTypeErrMsg⟩, []) := by
  simp [getTaskLogsImpl, if_pos (And.intro h1 h2)]

/-- Witness for C6: the literal invalid log type from the spec example. -/
theorem c6_log_type_validation_witness :
    getTaskLogsImpl (some [("authorization".data, "Bearer tok".data)])
      (fun _ _ => Except.ok ("out".data)) (fun _ _ => Except.ok ("err".data))
      ("u-1".data) ("invalid".data) none =
      (Except.error ⟨logTypeErrMsg⟩, []) :=
  c6_log_type_validation (some [("authorization".data, "Bearer tok".data)])
    (fun _ _ => Except.ok ("out".data)) (fun _ _ => Except.ok ("err".data))
    ("u-1".data) ("invalid".data) none (by decide) (by decide)

/-! ### Claim C7: the response-handling contract of the client -/

/-- Claim C7: for every HTTP response, a status of at least 400 raises the
typed API failure carrying that status and the message field of the parsed
body (falling back to the raw text when parsing raises, the parse is not a
dict, or the field is absent); a 204 yields the empty result regardless of
body or content type; otherwise the body is decoded as JSON exactly when
the content type indicates JSON, and returned as raw text otherwise. -/
theorem c7_response_contract (r : HttpResponse) :
    (400 ≤ r.status →
      handleResponse r = ReqResult.raisedErr r.status (errMessage r) ∧
      (∀ kvs m, r.jsonBody = some (PyVal.vDict kvs) →
        alookup kvs ("message".data) = some m → errMessage r = m) ∧
      (∀ kvs, r.jsonBody = some (PyVal.vDict kvs) →
        alookup kvs ("message".data) = none → errMessage r = PyVal.vStr r.text) ∧
      (r.jsonBody = none → errMessage r = PyVal.vStr r.text)) ∧
    (r.status = 204 → ∀ b ct,
      handleResponse { r with jsonBody := b, contentType := ct } = ReqResult.noneResult) ∧
    (r.status < 400 → r.status ≠ 204 →
      (containsSeq r.contentType ("application/json".data) = true →
        ∀ v, r.jsonBody = some v → handleResponse r = ReqResult.jsonResult v) ∧
      (containsSeq r.contentType ("application/json".data) = false →
        handleResponse r = ReqResult.textResult r.text)) := by
  refine ⟨?_, ?_, ?_⟩
  · intro h
    refine ⟨by simp [handleResponse, h], ?_, ?_, ?_⟩
    · intro kvs m hb hm; simp [errMessage, hb, hm]
    · intro kvs hb hm; simp [errMessage, hb, hm]
    · intro hb; simp [errMessage, hb]
  · intro h b ct
    have hlt : ¬ 400 ≤ r.status := by omega
    simp [handleResponse, hlt, h]
  · intro hlt hne
    have h1 : ¬ 400 ≤ r.status := by omega
    constructor
    · intro hct v hb; simp [handleResponse, h1, hne, hct, hb]
    · intro hct; simp [handleResponse, h1, hne, hct]

/-- Witness for C7: one response per branch — an error with a JSON message
field, a 204 with a body present, a JSON-typed success, a plain-text
success. -/
theorem c7_response_contract_witness :
    handleResponse ⟨500, some (PyVal.vDict [("message".data, PyVal.vStr "boom".data)]),
        "raw".data, "application/json".data⟩ =
      ReqResult.raisedErr 500 (PyVal.vStr "boom".data) ∧
    handleResponse ⟨204, some (PyVal.vDict []), "x".data, "application/json".data⟩ =
      ReqResult.noneResult ∧
    handleResponse ⟨200, some (PyVal.vInt 7), "t".data, "application/json; charset=utf-8".data⟩ =
      ReqResult.jsonResult (PyVal.vInt 7) ∧
    handleResponse ⟨200, none, "plain".data, "text/plain".data⟩ =
      ReqResult.textResult ("plain".data) := by
  refine ⟨?_, ?_, ?_, ?_⟩
  · have h := (c7_response_contract ⟨500, some (PyVal.vDict [("message".data, PyVal.vStr "boom".data)]),
        "raw".data, "application/json".data⟩).1 (by decide)
    exact h.1.trans (congrArg (ReqResult.raisedErr 500) (h.2.1 _ _ rfl rfl))
  · exact (c7_response_contract ⟨204, none, "x".data, [] ⟩).2.1 rfl
      (some (PyVal.vDict [])) ("application/json".data)
  · exact ((c7_response_contract ⟨200, some (PyVal.vInt 7), "t".data,
      "application/json; charset=utf-8".data⟩).2.2 (by decide) (by decide)).1 rfl
      (PyVal.vInt 7) rfl
  · exact ((c7_response_contract ⟨200, none, "plain".data,
      "text/plain".data⟩).2.2 (by decide) (by decide)).2 rfl

/-! ### Claim C8: per-handler remote-failure mapping -/

/-- Claim C8: with a resolved credential, a 404 from get_task maps to the
Not-Found tool error whose message contains the requested UUID; a 403 from
abort_task maps to the contextual cannot-abort message; any other failure
status maps to the generic message embedding the remote-supplied text. -/
theorem c8_error_mapping (ctx : Option Headers) (key uuid m : List Char)
    (status : Nat)
    (rGet : List Char → Except APIErr Pydict)
    (rAbort : List Char → Except APIErr Unit)
    (hok : resolveCtx ctx = Except.ok key) :
    (rGet uuid = Except.error ⟨404, m⟩ →
      (getTaskImpl ctx rGet uuid).1 = Except.error ⟨"Task not found: ".data ++ uuid⟩ ∧
      containsSeq ("Task not found: ".data ++ uuid) uuid = true) ∧
    (status ≠ 404 → rGet uuid = Except.error ⟨status, m⟩ →
      (getTaskImpl ctx rGet uuid).1 = Except.error ⟨"Failed to get task: ".data ++ m⟩ ∧
      containsSeq ("Failed to get task: ".data ++ m) m = true) ∧
    (rAbort uuid = Except.error ⟨403, m⟩ →
      (abortTaskImpl ctx rAbort uuid).1 =
        Except.error ⟨"Cannot abort task (may already be completed): ".data ++ uuid⟩) ∧
    (rAbort uuid = Except.error ⟨404, m⟩ →
      (abortTaskImpl ctx rAbort uuid).1 = Except.error ⟨"Task not found: ".data ++ uuid⟩) ∧
    (status ≠ 404 → status ≠ 403 → rAbort uuid = Except.error ⟨status, m⟩ →
      (abortTaskImpl ctx rAbort uuid).1 = Except.error ⟨"Failed to abort task: ".data ++ m⟩ ∧
      containsSeq ("Failed to abort task: ".data ++ m) m = true) := by
  refine ⟨?_, ?_, ?_, ?_, ?_⟩
  · intro hr
    exact ⟨by simp [getTaskImpl, hok, hr], containsSeq_append_right _ _⟩
  · intro hst hr
    exact ⟨by simp [getTaskImpl, hok, hr, hst], containsSeq_append_right _ _⟩
  · intro hr; simp [abortTaskImpl, hok, hr]
  · intro hr; simp [abortTaskImpl, hok, hr]
  · intro h4 h3 hr
    exact ⟨by simp [abortTaskImpl, hok, hr, h4, h3], containsSeq_append_right _ _⟩

/-- Witness for C8: the missing-uuid example of the spec — a 404 from
get_task names the UUID, and a 403 from abort_task yields the contextual
message. -/
theorem c8_error_mapping_witness :
    (getTaskImpl (some [("authorization".data, "Bearer tok".data)])
      (fun _ => Except.error ⟨404, "nf".data⟩) ("missing-uuid".data)).1 =
      Except.error ⟨"Task not found: ".data ++ "missing-uuid".data⟩ ∧
    containsSeq ("Task not found: ".data ++ "missing-uuid".data) ("missing-uuid".data) = true ∧
    (abortTaskImpl (some [("authorization".data, "Bearer tok".data)])
      (fun _ => Except.error ⟨403, "fb".data⟩) ("missing-uuid".data)).1 =
      Except.error ⟨"Cannot abort task (may already be completed): ".data ++ "missing-uuid".data⟩ := by
  have h := c8_error_mapping (some [("authorization".data, "Bearer tok".data)])
    ("tok".data) ("missing-uuid".data) ("nf".data) 500
    (fun _ => Except.error ⟨404, "nf".data⟩)
    (fun _ => Except.error ⟨403, "fb".data⟩) rfl
  have h' := c8_error_mapping (some [("authorization".data, "Bearer tok".data)])
    ("tok".data) ("missing-uuid".data) ("fb".data) 500
    (fun _ => Except.error ⟨404, "nf".data⟩)
    (fun _ => Except.error ⟨403, "fb".data⟩) rfl
  exact ⟨(h.1 rfl).1, (h.1 rfl).2, h'.2.2.1 rfl⟩

/-! ### Claim C9: the client is never closed -/

/-- Claim C9 fails on the code: no tool handler ever emits a close effect
on any path — the client constructed for an invocation is never released.
Every handler trace, on every input (success, remote failure, or
resolution failure), contains no close event, while a successful path does
construct a client. -/
theorem c9_close_never_called (ctx : Option Headers)
    (rList : Option (List (List Char)) → Except APIErr (List Pydict))
    (rGet rProfile : List Char → Except APIErr Pydict)
    (rCreate : Pydict → Except APIErr Pydict)
    (rAbort rDelete : List Char → Except APIErr Unit)
    (rOut rErr : List Char → Option Int → Except APIErr (List Char))
    (rProfiles : Unit → Except APIErr (List Pydict))
    (tags rb tg : Option (List (List Char)))
    (uuid name log_type pname : List Char)
    (profile short res : Option (List Char)) (ic inst : Option Int)
    (cs : Option (List (List (List Char × List Char)))) :
    (listTasksImpl ctx rList tags).2.any Ev.isClose = false ∧
    (getTaskImpl ctx rGet uuid).2.any Ev.isClose = false ∧
    (submitTaskImpl ctx rCreate name profile ic short rb res cs tg).2.any Ev.isClose = false ∧
    (getTaskLogsImpl ctx rOut rErr uuid log_type inst).2.any Ev.isClose = false ∧
    (abortTaskImpl ctx rAbort uuid).2.any Ev.isClose = false ∧
    (deleteTaskImpl ctx rDelete uuid).2.any Ev.isClose = false ∧
    (listProfilesImpl ctx rProfiles).2.any Ev.isClose = false ∧
    (getProfileImpl ctx rProfile pname).2.any Ev.isClose = false := by
  refine ⟨?_, ?_, ?_, ?_, ?_, ?_, ?_, ?_⟩
  · rcases h : resolveCtx ctx with e | k
    · simp [listTasksImpl, h, Ev.isClose]
    · rcases hr : rList tags with v | e <;> simp [listTasksImpl, h, hr, Ev.isClose]
  · rcases h : resolveCtx ctx with e | k
    · simp [getTaskImpl, h, Ev.isClose]
    · rcases hr : rGet uuid with v | e <;>
        simp [getTaskImpl, h, hr, Ev.isClose, apply_ite (Prod.snd (β := List Ev))]
  · rcases h : resolveCtx ctx with e | k
    · simp [submitTaskImpl, h, Ev.isClose]
    · rcases hr : rCreate (submitPayload name profile ic short rb res cs tg) with v | e <;>
        simp [submitTaskImpl, h, hr, Ev.isClose]
  · by_cases hv : log_type ≠ "stdout".data ∧ log_type ≠ "stderr".data
    · simp [getTaskLogsImpl, if_pos hv]
    · rcases h : resolveCtx ctx with e | k
      · simp [getTaskLogsImpl, if_neg hv, h, Ev.isClose]
      · simp only [getTaskLogsImpl, if_neg hv, h]
        rcases hr : (if log_type = "stdout".data then rOut uuid inst else rErr uuid inst) with v | e <;>
          simp [hr, Ev.isClose, apply_ite (Prod.snd (β := List Ev))]
  · rcases h : resolveCtx ctx with e | k
    · simp [abortTaskImpl, h, Ev.isClose]
    · rcases hr : rAbort uuid with v | e <;>
        simp [abortTaskImpl, h, hr, Ev.isClose, apply_ite (Prod.snd (β := List Ev))]
  · rcases h : resolveCtx ctx with e | k
    · simp [deleteTaskImpl, h, Ev.isClose]
    · rcases hr : rDelete uuid with v | e <;>
        simp [deleteTaskImpl, h, hr, Ev.isClose, apply_ite (Prod.snd (β := List Ev))]
  · rcases h : resolveCtx ctx with e | k
    · simp [listProfilesImpl, h, Ev.isClose]
    · rcases hr : rProfiles () with v | e <;> simp [listProfilesImpl, h, hr, Ev.isClose]
  · rcases h : resolveCtx ctx with e | k
    · simp [getProfileImpl, h, Ev.isClose]
    · rcases hr : rProfile pname with v | e <;>
        simp [getProfileImpl, h, hr, Ev.isClose, apply_ite (Prod.snd (β := List Ev))]

/-- Evaluation at the failing input for C9: a fully successful list_tasks
invocation constructs a client (the construct event is in the trace) yet
never closes it. -/
theorem c9_close_never_called_failing_input :
    (listTasksImpl (some [("authorization".data, "Bearer tok".data)])
        (fun _ => Except.ok []) none).2 =
      [Ev.resolve, Ev.construct, Ev.call (RemoteOp.listTasks none)] ∧
    [Ev.resolve, Ev.construct, Ev.call (RemoteOp.listTasks none)].any Ev.isClose = false := by
  exact ⟨rfl, by simp [Ev.isClose]⟩

end QarnotMCP
